import Mathlib

/-!
# Verification of the clightd backlight service core

Shallow embedding of `src/clightd/src/clightd.c`: the device resolver
(`get_first_matching_device`, `udev_device_new_from_subsystem_sysname`),
the attribute accessor (`udev_device_get_sysattr_value` / `atoi` /
`sprintf "%d"` / `udev_device_set_sysattr_value`), the four bus method
handlers, and the request loop in `main`.

The udev world is modelled as a list of devices of the "backlight"
subsystem, each carrying an association list of sysfs attributes and a
writability flag (modelling OS permission on `udev_device_set_sysattr_value`).
Each handler threads the world explicitly and also returns a trace of the
capability effects it performed (enumeration, lookup, attribute read/write,
handle unref), so that frame and resource-ownership properties are statable.
The uninitialized `struct udev_device *dev` stack slot of each handler is
modelled by an explicit `Uninit` argument (`null` or `junk` indeterminate
bits), because `get_first_matching_device` does not assign `*dev` when the
enumeration is empty. Undefined behaviour (dereferencing the indeterminate
pointer, `atoi(NULL)` on an absent attribute) is modelled by the distinguished
outcome `Outcome.crash`.
-/

namespace Clightd

/-! ## C standard library fragments: `atoi` and `sprintf "%d"` -/

/-- C `isspace` on the default locale, as consulted by `atoi`. -/
def isSpaceC (c : Char) : Bool :=
  c = ' ' || c = '\t' || c = '\n' || c = '\x0b' || c = '\x0c' || c = '\r'

/-- `atoi` skips leading whitespace. -/
def dropSpacesC : List Char → List Char
  | [] => []
  | c :: cs => if isSpaceC c then dropSpacesC cs else c :: cs

/-- `atoi` consumes the longest leading run of decimal digits. -/
def takeDigitsC : List Char → List Char
  | [] => []
  | c :: cs => if c.isDigit then c :: takeDigitsC cs else []

/-- Numeric value of a digit string (most significant first). -/
def digitsValFrom (a : Nat) (cs : List Char) : Nat :=
  cs.foldl (fun a c => a * 10 + (c.toNat - 48)) a

def digitsVal (cs : List Char) : Nat := digitsValFrom 0 cs

/-- C `atoi`: leading whitespace, optional sign, longest digit prefix;
a string with no leading digits yields `0` (never an error). -/
def atoi (s : String) : Int :=
  match dropSpacesC s.data with
  | [] => 0
  | c :: rest =>
    if c = '-' then - (digitsVal (takeDigitsC rest) : Int)
    else if c = '+' then (digitsVal (takeDigitsC rest) : Int)
    else (digitsVal (takeDigitsC (c :: rest)) : Int)

/-- The decimal digit character for `d < 10`, as produced by `sprintf "%d"`. -/
def digitChar (d : Nat) : Char := Char.ofNat (48 + d)

/-- Digit emission loop of `sprintf "%d"` (least significant digit first,
prepended to the accumulator); the fuel argument makes the recursion
structural, and any fuel at least the printed number is enough. -/
def natToDecAux : Nat → Nat → List Char → List Char
  | 0, _, acc => acc
  | fuel + 1, n, acc =>
    if n = 0 then acc else natToDecAux fuel (n / 10) (digitChar (n % 10) :: acc)

/-- Decimal representation of a natural number. -/
def natToDec (n : Nat) : List Char :=
  if n = 0 then ['0'] else natToDecAux n n []

/-- `sprintf(val, "%d", value)`: decimal rendering of a C int. -/
def sprintfD (v : Int) : String :=
  if v < 0 then String.mk ('-' :: natToDec v.natAbs) else String.mk (natToDec v.toNat)

/-- `10 ^ (number of decimal digits emitted for n)`, with zero digits for `0`. -/
def padPow : Nat → Nat
  | 0 => 1
  | n + 1 => 10 * padPow ((n + 1) / 10)
decreasing_by exact Nat.div_lt_self (Nat.succ_pos n) (by omega)

/-! ## The udev world -/

/-- One udev device node of the "backlight" subsystem: its kernel sysname,
its sysfs attribute store, and whether the process may write its sysfs files
(the OS permission consulted by `udev_device_set_sysattr_value`). -/
structure Device where
  sysname : String
  attrs : List (String × String)
  writable : Bool
deriving DecidableEq, Repr

/-- The state of the "backlight" subsystem: its devices, in the order the
udev enumeration capability yields them. -/
structure World where
  devices : List Device
deriving DecidableEq, Repr

/-- `udev_device_get_sysattr_value(dev, attr)`: the stored string, or NULL
(`none`) when the sysfs attribute is absent. -/
def udev_device_get_sysattr_value (d : Device) (attr : String) : Option String :=
  (d.attrs.find? (fun p => p.1 = attr)).map (fun p => p.2)

/-- Update one device's attribute store: overwrite the value of an existing
attribute file (sysfs files cannot be created by a write). -/
def setAttrVal (d : Device) (attr v : String) : Device :=
  { d with attrs := d.attrs.map (fun p => if p.1 = attr then (p.1, v) else p) }

/-- `udev_device_set_sysattr_value(dev, attr, val)`: succeeds (returning the
updated world) iff the process may write the device and the attribute file
exists; otherwise fails with a negative errno. -/
def udev_device_set_sysattr_value (w : World) (d : Device) (attr v : String) :
    Option World :=
  if d.writable = true ∧ d.attrs.any (fun p => p.1 = attr) = true then
    some ⟨w.devices.map (fun x => if x.sysname = d.sysname then setAttrVal x attr v else x)⟩
  else none

/-- `udev_device_new_from_subsystem_sysname(udev, "backlight", name)`:
exact-sysname lookup in the subsystem. -/
def udev_device_new_from_subsystem_sysname (w : World) (name : String) : Option Device :=
  w.devices.find? (fun d => d.sysname = name)

/-- The indeterminate contents of the handlers' uninitialized
`struct udev_device *dev` stack slot: NULL bits or non-null junk bits. -/
inductive Uninit
  | null
  | junk
deriving DecidableEq, Repr

/-- The value of the `dev` pointer after the resolution snippet ran:
NULL, indeterminate junk (never assigned), or a valid device. -/
inductive StackPtr
  | null
  | junk
  | valid (d : Device)
deriving DecidableEq, Repr

/-- `get_first_matching_device(&dev, "backlight")`: the `udev_list_entry_foreach`
body assigns `*dev` from the first enumerated syspath and breaks; when the
enumeration is empty the body never runs and `*dev` keeps the caller's
indeterminate stack contents. -/
def get_first_matching_device (w : World) (u : Uninit) : StackPtr :=
  match w.devices with
  | [] =>
    match u with
    | .null => .null
    | .junk => .junk
  | d :: _ => .valid d

/-- The resolution snippet shared verbatim by every handler:
`if (!strlen(name)) get_first_matching_device(&dev, "backlight");
else dev = udev_device_new_from_subsystem_sysname(udev, "backlight", name);` -/
def resolveDevice (w : World) (u : Uninit) (name : String) : StackPtr :=
  if name.length = 0 then get_first_matching_device w u
  else
    match udev_device_new_from_subsystem_sysname w name with
    | some d => .valid d
    | none => .null

/-! ## Handler outcomes and capability effects -/

/-- The sd-bus error categories the handlers set on `ret_error`. -/
inductive BusErr
  | invalidArgs
  | fileNotFound
  | accessDenied
deriving DecidableEq, Repr

/-- What a handler invocation does on the bus: a successful
`sd_bus_reply_method_return("i", v)`, an error reply, or undefined behaviour
(dereferencing the indeterminate `dev` pointer, or `atoi(NULL)` when an
attribute is absent). -/
inductive Outcome
  | reply (value : Int)
  | busError (e : BusErr) (msg : String)
  | crash
deriving DecidableEq, Repr

/-- Capability calls a handler performs against udev, in program order. -/
inductive Effect
  | enumerate (subsystem : String)
  | lookup (subsystem : String) (sysname : String)
  | readAttr (sysname : String) (attr : String)
  | writeAttr (sysname : String) (attr : String) (value : String)
  | unref (sysname : String)
deriving DecidableEq, Repr

/-- The resolution snippet's capability call. -/
def resolveEffect (name : String) : Effect :=
  if name.length = 0 then .enumerate "backlight" else .lookup "backlight" name

/-- Does an effect write a device attribute? -/
def isWriteEff : Effect → Bool
  | .writeAttr _ _ _ => true
  | _ => false

/-! ## The four bus method handlers -/

/-- `method_setbrightness`: reject `value < 0`; resolve the device; re-read
`max_brightness` and reject `value > max` (without releasing the handle — the
code returns straight out of this branch); render the value with
`sprintf(val, "%d", value)` into `char val[10]` — the rendering plus its NUL
terminator must fit the 10-byte stack buffer, otherwise the `sprintf`
overflows it (undefined behaviour, modelled as a crash); then write the
`brightness` attribute, unreffing and replying with the written value on
success, unreffing and replying AccessDenied on write failure. -/
def method_setbrightness (w : World) (u : Uninit) (name : String) (value : Int) :
    Outcome × World × List Effect :=
  if value < 0 then
    (.busError .invalidArgs "Value must be greater or equal to 0.", w, [])
  else
    match resolveDevice w u name with
    | .null => (.busError .fileNotFound "Device does not exist.", w, [resolveEffect name])
    | .junk => (.crash, w, [resolveEffect name])
    | .valid d =>
      match udev_device_get_sysattr_value d "max_brightness" with
      | none => (.crash, w, [resolveEffect name, .readAttr d.sysname "max_brightness"])
      | some s =>
        if value > atoi s then
          (.busError .invalidArgs ("Value must be smaller than " ++ sprintfD (atoi s) ++ "."),
           w, [resolveEffect name, .readAttr d.sysname "max_brightness"])
        else
          if (sprintfD value).length + 1 > 10 then
            (.crash, w, [resolveEffect name, .readAttr d.sysname "max_brightness"])
          else
            match udev_device_set_sysattr_value w d "brightness" (sprintfD value) with
            | none =>
              (.busError .accessDenied "Not authorized.", w,
               [resolveEffect name, .readAttr d.sysname "max_brightness",
                .writeAttr d.sysname "brightness" (sprintfD value), .unref d.sysname])
            | some w' =>
              (.reply value, w',
               [resolveEffect name, .readAttr d.sysname "max_brightness",
                .writeAttr d.sysname "brightness" (sprintfD value), .unref d.sysname])

/-- Common body of the three getter handlers, which are textually identical
in the source except for the attribute they read: resolve, `atoi` the
attribute (NULL dereference if absent), unref, reply. -/
def method_getattr (attr : String) (w : World) (u : Uninit) (name : String) :
    Outcome × World × List Effect :=
  match resolveDevice w u name with
  | .null => (.busError .fileNotFound "Device does not exist.", w, [resolveEffect name])
  | .junk => (.crash, w, [resolveEffect name])
  | .valid d =>
    match udev_device_get_sysattr_value d attr with
    | none => (.crash, w, [resolveEffect name, .readAttr d.sysname attr])
    | some s =>
      (.reply (atoi s), w,
       [resolveEffect name, .readAttr d.sysname attr, .unref d.sysname])

/-- `method_getbrightness`: reads the `brightness` attribute. -/
def method_getbrightness (w : World) (u : Uninit) (name : String) :
    Outcome × World × List Effect :=
  method_getattr "brightness" w u name

/-- `method_getmaxbrightness`: reads the `max_brightness` attribute. -/
def method_getmaxbrightness (w : World) (u : Uninit) (name : String) :
    Outcome × World × List Effect :=
  method_getattr "max_brightness" w u name

/-- `method_getactualbrightness`: reads the `actual_brightness` attribute. -/
def method_getactualbrightness (w : World) (u : Uninit) (name : String) :
    Outcome × World × List Effect :=
  method_getattr "actual_brightness" w u name

/-! ## The request loop of `main` -/

/-- The state of the `for (;;)` loop in `main`: about to call
`sd_bus_process` (Draining), about to call `sd_bus_wait` (Waiting), or
jumped to `finish:` (with `true` when leaving via an error, i.e.
`EXIT_FAILURE`). -/
inductive LoopState
  | draining
  | waiting
  | finished (failure : Bool)
deriving DecidableEq, Repr

/-- One iteration step, driven by the return value the transport produces for
the state's blocking call: in Draining, `sd_bus_process` returning `< 0` jumps
to `finish:`, `> 0` continues draining, `0` falls through to waiting; in
Waiting, `sd_bus_wait` returning `< 0` jumps to `finish:`, otherwise the loop
restarts at `sd_bus_process`. `finish:` is absorbing. -/
def loopStep : LoopState → Int → LoopState
  | .draining, r => if r < 0 then .finished true else if r > 0 then .draining else .waiting
  | .waiting, r => if r < 0 then .finished true else .draining
  | .finished b, _ => .finished b

/-- Run the loop from its entry state (Draining) over a finite prefix of
transport return values. -/
def runLoop (rs : List Int) : LoopState := rs.foldl loopStep .draining

/-! ## Concrete worlds used by witnesses and counterexamples -/

/-- The spec's concrete scenario device: max 100, current 40. -/
def dev0 : Device :=
  { sysname := "intel_backlight",
    attrs := [("brightness", "40"), ("max_brightness", "100"), ("actual_brightness", "40")],
    writable := true }

/-- A one-device backlight subsystem. -/
def w0 : World := ⟨[dev0]⟩

/-- `dev0` after a successful write of brightness 60. -/
def dev0after : Device :=
  { sysname := "intel_backlight",
    attrs := [("brightness", "60"), ("max_brightness", "100"), ("actual_brightness", "40")],
    writable := true }

/-- `w0` after a successful write of brightness 60. -/
def w0after : World := ⟨[dev0after]⟩

/-- A device whose stored brightness value is not parsable as an integer. -/
def devGarbage : Device :=
  { sysname := "intel_backlight",
    attrs := [("brightness", "garbage"), ("max_brightness", "100")],
    writable := true }

/-- A backlight subsystem holding only `devGarbage`. -/
def wGarbage : World := ⟨[devGarbage]⟩

/-- A backlight subsystem with zero devices. -/
def wEmpty : World := ⟨[]⟩

/-- A device whose stored `max_brightness` parses large enough (while still a
representable C int) to admit write values whose decimal rendering does not
fit the 10-byte `sprintf` buffer. -/
def devBig : Device :=
  { sysname := "intel_backlight",
    attrs := [("brightness", "40"), ("max_brightness", "2000000000")],
    writable := true }

/-- A backlight subsystem holding only `devBig`. -/
def wBig : World := ⟨[devBig]⟩

/-! ## `atoi` / `sprintf "%d"` round trip -/

theorem digitChar_toNat {d : Nat} (h : d < 10) : (digitChar d).toNat = 48 + d := by
  interval_cases d <;> decide

theorem digitChar_isDigit {d : Nat} (h : d < 10) : (digitChar d).isDigit = true := by
  interval_cases d <;> decide

theorem digitsValFrom_cons (a : Nat) (c : Char) (cs : List Char) :
    digitsValFrom a (c :: cs) = digitsValFrom (a * 10 + (c.toNat - 48)) cs := rfl

theorem natToDecAux_val (fuel : Nat) : ∀ n acc a, n ≤ fuel →
    digitsValFrom a (natToDecAux fuel n acc) = digitsValFrom (a * padPow n + n) acc := by
  induction fuel with
  | zero =>
    intro n acc a hn
    have h0 : n = 0 := Nat.le_zero.mp hn
    subst h0
    simp [natToDecAux, padPow]
  | succ fuel ih =>
    intro n acc a hn
    by_cases h0 : n = 0
    · subst h0; simp [natToDecAux, padPow]
    · obtain ⟨m, rfl⟩ := Nat.exists_eq_succ_of_ne_zero h0
      rw [natToDecAux, if_neg h0,
        ih ((m + 1) / 10) _ _ (by omega),
        digitsValFrom_cons, digitChar_toNat (Nat.mod_lt _ (by omega))]
      have hdm : 10 * ((m + 1) / 10) + (m + 1) % 10 = m + 1 := Nat.div_add_mod (m + 1) 10
      have hpad : padPow (m + 1) = 10 * padPow ((m + 1) / 10) := by rw [padPow]
      congr 1
      rw [hpad]
      have h48 : 48 + (m + 1) % 10 - 48 = (m + 1) % 10 := by omega
      rw [h48]
      have hmul : a * (10 * padPow ((m + 1) / 10)) = a * padPow ((m + 1) / 10) * 10 := by ring
      rw [hmul]
      omega

theorem digitsVal_natToDec (n : Nat) : digitsVal (natToDec n) = n := by
  by_cases h : n = 0
  · subst h; decide
  · rw [natToDec, if_neg h]
    have := natToDecAux_val n n [] 0 (Nat.le_refl n)
    simpa [digitsVal, digitsValFrom] using this

theorem natToDecAux_digits (fuel : Nat) : ∀ n acc, (∀ c ∈ acc, c.isDigit = true) →
    ∀ c ∈ natToDecAux fuel n acc, c.isDigit = true := by
  induction fuel with
  | zero => intro n acc hacc; simpa [natToDecAux] using hacc
  | succ fuel ih =>
    intro n acc hacc
    by_cases h0 : n = 0
    · subst h0; simpa [natToDecAux] using hacc
    · rw [natToDecAux, if_neg h0]
      refine ih (n / 10) _ ?_
      intro c hc
      rcases List.mem_cons.mp hc with h | h
      · subst h; exact digitChar_isDigit (Nat.mod_lt _ (by omega))
      · exact hacc c h

theorem natToDecAux_ne_nil (fuel : Nat) : ∀ n acc, acc ≠ [] →
    natToDecAux fuel n acc ≠ [] := by
  induction fuel with
  | zero => intro n acc hacc; simpa [natToDecAux] using hacc
  | succ fuel ih =>
    intro n acc hacc
    by_cases h0 : n = 0
    · subst h0; simpa [natToDecAux] using hacc
    · rw [natToDecAux, if_neg h0]
      exact ih (n / 10) _ (by simp)

theorem natToDec_digits (n : Nat) : ∀ c ∈ natToDec n, c.isDigit = true := by
  by_cases h : n = 0
  · subst h; intro c hc; simp [natToDec] at hc; subst hc; decide
  · rw [natToDec, if_neg h]
    exact natToDecAux_digits n n [] (by simp)

theorem natToDec_ne_nil (n : Nat) : natToDec n ≠ [] := by
  by_cases h : n = 0
  · subst h; simp [natToDec]
  · rw [natToDec, if_neg h]
    obtain ⟨m, rfl⟩ := Nat.exists_eq_succ_of_ne_zero h
    rw [natToDecAux, if_neg h]
    exact natToDecAux_ne_nil _ _ _ (by simp)

theorem isDigit_not_space {c : Char} (h : c.isDigit = true) : isSpaceC c = false := by
  cases he : isSpaceC c
  · rfl
  · exfalso
    simp only [isSpaceC, Bool.or_eq_true, decide_eq_true_eq] at he
    rcases he with ((((h1 | h1) | h1) | h1) | h1) | h1 <;> subst h1 <;>
      exact absurd h (by decide)

theorem isDigit_ne_minus {c : Char} (h : c.isDigit = true) : c ≠ '-' := by
  intro he; subst he; simp [Char.isDigit] at h

theorem isDigit_ne_plus {c : Char} (h : c.isDigit = true) : c ≠ '+' := by
  intro he; subst he; simp [Char.isDigit] at h

theorem takeDigitsC_all_digits (cs : List Char) (h : ∀ c ∈ cs, c.isDigit = true) :
    takeDigitsC cs = cs := by
  induction cs with
  | nil => rfl
  | cons c cs ih =>
    rw [takeDigitsC, if_pos (h c (by simp))]
    rw [ih (fun c hc => h c (List.mem_cons_of_mem _ hc))]

/-- Round trip: `atoi` inverts the decimal printer on naturals; this underlies
read-after-write consistency of the brightness attribute. -/
theorem atoi_natToDec (n : Nat) : atoi (String.mk (natToDec n)) = n := by
  have hdig := natToDec_digits n
  have hne := natToDec_ne_nil n
  match hcs : natToDec n with
  | [] => exact absurd hcs hne
  | c :: rest =>
    have hc : c.isDigit = true := by
      refine hdig c ?_
      rw [hcs]; simp
    have hdrop : dropSpacesC (c :: rest) = c :: rest := by
      rw [dropSpacesC, if_neg]
      rw [isDigit_not_space hc]
      simp
    have hdata : (String.mk (c :: rest)).data = c :: rest := rfl
    rw [atoi, hdata, hdrop]
    simp only [if_neg (isDigit_ne_minus hc), if_neg (isDigit_ne_plus hc)]
    rw [takeDigitsC_all_digits (c :: rest) (by rw [← hcs]; exact hdig)]
    rw [← hcs, digitsVal_natToDec]

/-- `atoi` inverts `sprintf "%d"` on every non-negative int. -/
theorem atoi_sprintfD {v : Int} (h : 0 ≤ v) : atoi (sprintfD v) = v := by
  rw [sprintfD, if_neg (by omega)]
  rw [atoi_natToDec]
  exact Int.toNat_of_nonneg h

/-! ## Helper lemmas about the udev world -/

theorem setAttrVal_sysname (d : Device) (attr v : String) :
    (setAttrVal d attr v).sysname = d.sysname := rfl

theorem isWriteEff_resolveEffect (name : String) :
    isWriteEff (resolveEffect name) = false := by
  rw [resolveEffect]
  split <;> rfl

theorem find?_sysname_map (l : List Device) (name : String) (f : Device → Device)
    (hf : ∀ x, (f x).sysname = x.sysname) :
    (l.map f).find? (fun x => x.sysname = name)
      = (l.find? (fun x => x.sysname = name)).map f := by
  have hp : ((fun x : Device => decide (x.sysname = name)) ∘ f)
      = (fun x : Device => decide (x.sysname = name)) := by
    funext x
    simp only [Function.comp_apply]
    rw [hf x]
  rw [List.find?_map, hp]

theorem find?_update_list (l : List (String × String)) (attr v : String)
    (h : l.any (fun p => p.1 = attr) = true) :
    ((l.map (fun p => if p.1 = attr then (p.1, v) else p)).find?
        (fun p => p.1 = attr)).map (fun p => p.2) = some v := by
  induction l with
  | nil => simp at h
  | cons p ps ih =>
    rw [List.map_cons]
    by_cases hp : p.1 = attr
    · rw [if_pos hp, List.find?_cons_of_pos _ (by simp [hp])]
      rfl
    · rw [if_neg hp, List.find?_cons_of_neg _ (by simp [hp])]
      refine ih ?_
      simp only [List.any_cons, Bool.or_eq_true, decide_eq_true_eq] at h
      rcases h with h | h
      · exact absurd h hp
      · exact h

theorem getSysattr_setAttrVal (d : Device) (attr v : String)
    (h : d.attrs.any (fun p => p.1 = attr) = true) :
    udev_device_get_sysattr_value (setAttrVal d attr v) attr = some v :=
  find?_update_list d.attrs attr v h

theorem find?_sysname_eq_none (l : List Device) (name : String)
    (h : ∀ d ∈ l, d.sysname ≠ name) :
    l.find? (fun x => x.sysname = name) = none := by
  induction l with
  | nil => rfl
  | cons x xs ih =>
    rw [List.find?_cons_of_neg _ (by simp [h x (by simp)])]
    exact ih (fun d hd => h d (List.mem_cons_of_mem _ hd))

/-- Resolution commutes with a sysname-preserving update of every device. -/
theorem resolveDevice_map_update (w : World) (u u' : Uninit) (name : String)
    (d : Device) (f : Device → Device) (hf : ∀ x, (f x).sysname = x.sysname)
    (hres : resolveDevice w u name = .valid d) :
    resolveDevice ⟨w.devices.map f⟩ u' name = .valid (f d) := by
  rw [resolveDevice] at hres ⊢
  by_cases hname : name.length = 0
  · rw [if_pos hname] at hres ⊢
    obtain ⟨devs⟩ := w
    cases devs with
    | nil => cases u <;> simp [get_first_matching_device] at hres
    | cons d0 rest =>
      simp only [get_first_matching_device] at hres
      injection hres with h
      subst h
      rfl
  · rw [if_neg hname] at hres ⊢
    rw [udev_device_new_from_subsystem_sysname] at hres ⊢
    show (match (w.devices.map f).find? (fun x => x.sysname = name) with
      | some d => StackPtr.valid d
      | none => StackPtr.null) = StackPtr.valid (f d)
    rw [find?_sysname_map _ _ _ hf]
    cases hfind : w.devices.find? (fun x => x.sysname = name) with
    | none => rw [hfind] at hres; exact absurd hres (by simp)
    | some d1 =>
      rw [hfind] at hres
      simp only [] at hres
      injection hres with h
      subst h
      rfl

/-- Frame property of the shared getter body: the world passes through
untouched and the trace never contains an attribute write. -/
theorem getattr_frame (attr : String) (w : World) (u : Uninit) (name : String) :
    (method_getattr attr w u name).2.1 = w ∧
    ∀ e ∈ (method_getattr attr w u name).2.2, isWriteEff e = false := by
  rw [method_getattr]
  split
  · refine ⟨rfl, ?_⟩
    intro e he
    simp only [List.mem_singleton] at he
    subst he
    exact isWriteEff_resolveEffect name
  · refine ⟨rfl, ?_⟩
    intro e he
    simp only [List.mem_singleton] at he
    subst he
    exact isWriteEff_resolveEffect name
  · split
    · refine ⟨rfl, ?_⟩
      intro e he
      simp only [List.mem_cons, List.mem_singleton, List.not_mem_nil, or_false] at he
      rcases he with he | he
      · subst he; exact isWriteEff_resolveEffect name
      · subst he; rfl
    · refine ⟨rfl, ?_⟩
      intro e he
      simp only [List.mem_cons, List.mem_singleton, List.not_mem_nil, or_false] at he
      rcases he with he | he | he
      · subst he; exact isWriteEff_resolveEffect name
      · subst he; rfl
      · subst he; rfl

/-- Normal-operation safety of the request loop: from a live state, a trace of
non-negative transport results keeps the loop live. -/
theorem runLoop_live (rs : List Int) : ∀ s : LoopState, (∀ r ∈ rs, 0 ≤ r) →
    (s = .draining ∨ s = .waiting) →
    (rs.foldl loopStep s = .draining ∨ rs.foldl loopStep s = .waiting) := by
  induction rs with
  | nil => intro s _ hs; simpa using hs
  | cons r rs ih =>
    intro s hr hs
    rw [List.foldl_cons]
    refine ih (loopStep s r) (fun x hx => hr x (List.mem_cons_of_mem _ hx)) ?_
    have hr0 : 0 ≤ r := hr r (by simp)
    rcases hs with h | h <;> subst h
    · rw [loopStep]
      rw [if_neg (by omega)]
      by_cases hgt : r > 0
      · rw [if_pos hgt]; exact Or.inl rfl
      · rw [if_neg hgt]; exact Or.inr rfl
    · rw [loopStep, if_neg (by omega)]
      exact Or.inl rfl

/-- The negative-value rejection path of `method_setbrightness`. -/
theorem setbrightness_neg_eq (w : World) (u : Uninit) (name : String) (v : Int)
    (h : v < 0) :
    method_setbrightness w u name v
      = (.busError .invalidArgs "Value must be greater or equal to 0.", w, []) := by
  rw [method_setbrightness, if_pos h]

/-- The over-max rejection path of `method_setbrightness`: note the trace
ends without an unref of the resolved handle. -/
theorem setbrightness_overmax_eq (w : World) (u : Uninit) (name : String) (v : Int)
    (d : Device) (s : String)
    (h0 : ¬ v < 0) (hres : resolveDevice w u name = .valid d)
    (hmax : udev_device_get_sysattr_value d "max_brightness" = some s)
    (hgt : v > atoi s) :
    method_setbrightness w u name v
      = (.busError .invalidArgs
          ("Value must be smaller than " ++ sprintfD (atoi s) ++ "."),
         w, [resolveEffect name, .readAttr d.sysname "max_brightness"]) := by
  simp only [method_setbrightness, if_neg h0, hres, hmax, if_pos hgt]

/-- The successful write path of `method_setbrightness`: reached when the
decimal rendering also fits the 10-byte `sprintf` buffer. -/
theorem setbrightness_success_eq (w : World) (u : Uninit) (name : String) (v : Int)
    (d : Device) (s : String) (w' : World)
    (h0 : ¬ v < 0) (hres : resolveDevice w u name = .valid d)
    (hmax : udev_device_get_sysattr_value d "max_brightness" = some s)
    (hle : ¬ v > atoi s)
    (hfit : ¬ (sprintfD v).length + 1 > 10)
    (hset : udev_device_set_sysattr_value w d "brightness" (sprintfD v) = some w') :
    method_setbrightness w u name v
      = (.reply v, w',
         [resolveEffect name, .readAttr d.sysname "max_brightness",
          .writeAttr d.sysname "brightness" (sprintfD v), .unref d.sysname]) := by
  simp only [method_setbrightness, if_neg h0, hres, hmax, if_neg hle, if_neg hfit, hset]

/-! ## Claims -/

/-- C9: in `method_setbrightness` the `value < 0` check precedes device
resolution: for every world (including an empty subsystem), every
uninitialized-slot content and every name (including the empty name and
names matching no device), a negative value makes the call fail with
InvalidArgument — never NotFound — with the world untouched and an empty
capability trace, so no enumeration or lookup is attempted. -/
theorem setbrightness_negative_before_resolution
    (w : World) (u : Uninit) (name : String) (v : Int) (h : v < 0) :
    method_setbrightness w u name v
      = (.busError .invalidArgs "Value must be greater or equal to 0.", w, []) :=
  setbrightness_neg_eq w u name v h

theorem setbrightness_negative_before_resolution_witness :
    method_setbrightness wEmpty .junk "" (-3)
      = (.busError .invalidArgs "Value must be greater or equal to 0.", wEmpty, []) :=
  setbrightness_negative_before_resolution wEmpty .junk "" (-3) (by decide)

/-- C10: the three getter handlers `method_getbrightness`,
`method_getmaxbrightness` and `method_getactualbrightness` never write any
device attribute: for every input the world is returned unchanged and the
capability trace contains no attribute-write effect. -/
theorem getters_never_write (w : World) (u : Uninit) (name : String) :
    ((method_getbrightness w u name).2.1 = w ∧
      ∀ e ∈ (method_getbrightness w u name).2.2, isWriteEff e = false) ∧
    ((method_getmaxbrightness w u name).2.1 = w ∧
      ∀ e ∈ (method_getmaxbrightness w u name).2.2, isWriteEff e = false) ∧
    ((method_getactualbrightness w u name).2.1 = w ∧
      ∀ e ∈ (method_getactualbrightness w u name).2.2, isWriteEff e = false) :=
  ⟨getattr_frame "brightness" w u name,
   getattr_frame "max_brightness" w u name,
   getattr_frame "actual_brightness" w u name⟩

/-- C7: the device resolver. With a non-empty name it performs an exact-name
lookup in the subsystem: when no device carries that name the handler fails
with NotFound, and when the lookup finds a device the resolver yields exactly
it (a device carrying exactly the requested name). With the empty name it
yields the first device the enumeration produces. -/
theorem resolver_contract (w : World) (u : Uninit) (name : String) :
    (name.length ≠ 0 → (∀ d ∈ w.devices, d.sysname ≠ name) →
      (method_getbrightness w u name).1
        = .busError .fileNotFound "Device does not exist.") ∧
    (∀ d, name.length ≠ 0 →
      w.devices.find? (fun x => x.sysname = name) = some d →
      resolveDevice w u name = .valid d ∧ d.sysname = name) ∧
    (∀ d rest, name.length = 0 → w.devices = d :: rest →
      resolveDevice w u name = .valid d) := by
  refine ⟨?_, ?_, ?_⟩
  · intro hname hnone
    have hfind : w.devices.find? (fun x => x.sysname = name) = none :=
      find?_sysname_eq_none w.devices name hnone
    have hres : resolveDevice w u name = .null := by
      rw [resolveDevice, if_neg hname, udev_device_new_from_subsystem_sysname, hfind]
    rw [method_getbrightness, method_getattr, hres]
  · intro d hname hfind
    constructor
    · rw [resolveDevice, if_neg hname, udev_device_new_from_subsystem_sysname, hfind]
    · have := List.find?_some hfind
      simpa using this
  · intro d rest hname hdevs
    rw [resolveDevice, if_pos hname, get_first_matching_device.eq_def, hdevs]

theorem resolver_contract_witness :
    ((method_getbrightness w0 .null "nosuch").1
        = .busError .fileNotFound "Device does not exist.") ∧
    (resolveDevice w0 .null "intel_backlight" = .valid dev0 ∧
      dev0.sysname = "intel_backlight") ∧
    (resolveDevice w0 .junk "" = .valid dev0) :=
  ⟨(resolver_contract w0 .null "nosuch").1 (by decide) (by decide),
   (resolver_contract w0 .null "intel_backlight").2.1 dev0 (by decide) (by decide),
   (resolver_contract w0 .junk "").2.2 dev0 [] (by decide) (by decide)⟩

/-- The brightness write algorithm below the buffer bound: a negative value
is rejected with InvalidArgument; otherwise, with the device resolved and
`max_brightness` re-read fresh from the current world, a value strictly above
the parsed max is rejected with InvalidArgument whose message carries that
max; otherwise, when the decimal rendering fits the 10-byte `sprintf` buffer,
the write of the rendered value is performed and on success the handler
replies with exactly the value written (the trace records the write of
`sprintf "%d"` of that same value). -/
theorem setbrightness_algorithm (w : World) (u : Uninit) (name : String) (v : Int) :
    (v < 0 → (method_setbrightness w u name v).1
        = .busError .invalidArgs "Value must be greater or equal to 0.") ∧
    (∀ d s, 0 ≤ v → resolveDevice w u name = .valid d →
      udev_device_get_sysattr_value d "max_brightness" = some s → atoi s < v →
      (method_setbrightness w u name v).1
        = .busError .invalidArgs
            ("Value must be smaller than " ++ sprintfD (atoi s) ++ ".")) ∧
    (∀ d s w', 0 ≤ v → resolveDevice w u name = .valid d →
      udev_device_get_sysattr_value d "max_brightness" = some s → v ≤ atoi s →
      (sprintfD v).length + 1 ≤ 10 →
      udev_device_set_sysattr_value w d "brightness" (sprintfD v) = some w' →
      (method_setbrightness w u name v).1 = .reply v ∧
      Effect.writeAttr d.sysname "brightness" (sprintfD v)
        ∈ (method_setbrightness w u name v).2.2) := by
  refine ⟨?_, ?_, ?_⟩
  · intro h
    rw [setbrightness_neg_eq w u name v h]
  · intro d s h0 hres hmax hgt
    rw [setbrightness_overmax_eq w u name v d s (by omega) hres hmax (by omega)]
  · intro d s w' h0 hres hmax hle hfit hset
    rw [setbrightness_success_eq w u name v d s w' (by omega) hres hmax (by omega)
      (by omega) hset]
    exact ⟨rfl, by simp⟩

theorem setbrightness_algorithm_witness :
    ((method_setbrightness w0 .null "intel_backlight" (-3)).1
        = .busError .invalidArgs "Value must be greater or equal to 0.") ∧
    ((method_setbrightness w0 .null "intel_backlight" 150).1
        = .busError .invalidArgs
            ("Value must be smaller than " ++ sprintfD (atoi "100") ++ ".")) ∧
    ((method_setbrightness w0 .null "intel_backlight" 60).1 = .reply 60 ∧
      Effect.writeAttr dev0.sysname "brightness" (sprintfD 60)
        ∈ (method_setbrightness w0 .null "intel_backlight" 60).2.2) :=
  ⟨(setbrightness_algorithm w0 .null "intel_backlight" (-3)).1 (by decide),
   (setbrightness_algorithm w0 .null "intel_backlight" 150).2.1 dev0 "100"
     (by decide) (by decide) (by decide) (by decide),
   (setbrightness_algorithm w0 .null "intel_backlight" 60).2.2 dev0 "100" w0after
     (by decide) (by decide) (by decide) (by decide) (by decide) (by decide)⟩

/-- C5: both rejection paths of `method_setbrightness` (negative value, and
value strictly above the freshly parsed `max_brightness` of the resolved
device) fail with InvalidArgument, return the world unchanged, and perform no
attribute write (the capability trace is free of write effects), so the
device's brightness is untouched. -/
theorem setbrightness_rejection_no_write (w : World) (u : Uninit) (name : String)
    (v : Int) :
    (v < 0 →
      (method_setbrightness w u name v).1
          = .busError .invalidArgs "Value must be greater or equal to 0."
      ∧ (method_setbrightness w u name v).2.1 = w
      ∧ ∀ e ∈ (method_setbrightness w u name v).2.2, isWriteEff e = false) ∧
    (∀ d s, 0 ≤ v → resolveDevice w u name = .valid d →
      udev_device_get_sysattr_value d "max_brightness" = some s → atoi s < v →
      (method_setbrightness w u name v).1
          = .busError .invalidArgs
              ("Value must be smaller than " ++ sprintfD (atoi s) ++ ".")
      ∧ (method_setbrightness w u name v).2.1 = w
      ∧ ∀ e ∈ (method_setbrightness w u name v).2.2, isWriteEff e = false) := by
  constructor
  · intro h
    rw [setbrightness_neg_eq w u name v h]
    refine ⟨rfl, rfl, ?_⟩
    intro e he
    exact absurd he (by simp)
  · intro d s h0 hres hmax hgt
    rw [setbrightness_overmax_eq w u name v d s (by omega) hres hmax (by omega)]
    refine ⟨rfl, rfl, ?_⟩
    intro e he
    simp only [List.mem_cons, List.mem_singleton, List.not_mem_nil, or_false] at he
    rcases he with he | he
    · subst he; exact isWriteEff_resolveEffect name
    · subst he; rfl

theorem setbrightness_rejection_no_write_witness :
    ((method_setbrightness w0 .null "intel_backlight" (-3)).1
        = .busError .invalidArgs "Value must be greater or equal to 0."
      ∧ (method_setbrightness w0 .null "intel_backlight" (-3)).2.1 = w0
      ∧ ∀ e ∈ (method_setbrightness w0 .null "intel_backlight" (-3)).2.2,
          isWriteEff e = false) ∧
    ((method_setbrightness w0 .null "intel_backlight" 150).1
        = .busError .invalidArgs
            ("Value must be smaller than " ++ sprintfD (atoi "100") ++ ".")
      ∧ (method_setbrightness w0 .null "intel_backlight" 150).2.1 = w0
      ∧ ∀ e ∈ (method_setbrightness w0 .null "intel_backlight" 150).2.2,
          isWriteEff e = false) :=
  ⟨(setbrightness_rejection_no_write w0 .null "intel_backlight" (-3)).1 (by decide),
   (setbrightness_rejection_no_write w0 .null "intel_backlight" 150).2 dev0 "100"
     (by decide) (by decide) (by decide) (by decide)⟩

/-- C8: the request loop of `main` is the stated two-state machine. Starting
in Draining (`runLoop` folds from `.draining`): a positive `sd_bus_process`
result keeps it Draining, a zero result moves it to Waiting, a non-negative
`sd_bus_wait` result moves it back to Draining; a negative result in either
state jumps to the absorbing `finish:` state with a failure exit, so a
transport error is fatal and never retried; and under any finite trace of
non-negative transport results the loop never reaches a terminal state. -/
theorem request_loop_state_machine :
    (∀ r : Int, 0 < r → loopStep .draining r = .draining) ∧
    (loopStep .draining 0 = .waiting) ∧
    (∀ r : Int, 0 ≤ r → loopStep .waiting r = .draining) ∧
    (∀ r : Int, r < 0 →
      loopStep .draining r = .finished true ∧ loopStep .waiting r = .finished true) ∧
    (∀ (b : Bool) (r : Int), loopStep (.finished b) r = .finished b) ∧
    (∀ rs : List Int, (∀ r ∈ rs, 0 ≤ r) →
      runLoop rs = .draining ∨ runLoop rs = .waiting) := by
  refine ⟨?_, ?_, ?_, ?_, ?_, ?_⟩
  · intro r hr
    rw [loopStep, if_neg (by omega), if_pos (by omega)]
  · rfl
  · intro r hr
    rw [loopStep, if_neg (by omega)]
  · intro r hr
    constructor
    · rw [loopStep, if_pos hr]
    · rw [loopStep, if_pos hr]
  · intro b r
    rfl
  · intro rs hrs
    exact runLoop_live rs .draining hrs (Or.inl rfl)

theorem request_loop_state_machine_witness :
    (loopStep .draining 2 = .draining) ∧
    (loopStep .waiting 1 = .draining) ∧
    (loopStep .draining (-1) = .finished true ∧ loopStep .waiting (-1) = .finished true) ∧
    (runLoop [1, 1, 0, 2, 0] = .draining ∨ runLoop [1, 1, 0, 2, 0] = .waiting) :=
  ⟨request_loop_state_machine.1 2 (by decide),
   request_loop_state_machine.2.2.1 1 (by decide),
   request_loop_state_machine.2.2.2.1 (-1) (by decide),
   request_loop_state_machine.2.2.2.2.2 [1, 1, 0, 2, 0] (by decide)⟩

/-- C1 counterexample: the claim says an unparsable stored attribute value
makes the read fail with AttributeUnavailable and that a coerced `0` is never
returned; but on a resolved device whose `brightness` file holds the
unparsable string `"garbage"`, `method_getbrightness` succeeds, replying with
`atoi`'s coercion `0`. -/
theorem getbrightness_unparsable_replies_zero :
    (method_getbrightness wGarbage .null "intel_backlight").1 = .reply 0 ∧
    (udev_device_get_sysattr_value devGarbage "brightness" = some "garbage" ∧
      resolveDevice wGarbage .null "intel_backlight" = .valid devGarbage) := by
  decide

/-- C1 amended: for every resolved device, the attribute read operation of
the three getters never produces an AttributeUnavailable error reply: when
the attribute is absent the handler passes NULL to `atoi` — undefined
behaviour, modelled as a crash — and when the attribute is present, parsable
or not, the handler successfully replies with `atoi` of the stored string
(which coerces an unparsable value to 0). -/
theorem getters_coerce_or_crash (w : World) (u : Uninit) (name : String)
    (d : Device) (hres : resolveDevice w u name = .valid d) :
    ((udev_device_get_sysattr_value d "brightness" = none →
        (method_getbrightness w u name).1 = .crash) ∧
      (∀ s, udev_device_get_sysattr_value d "brightness" = some s →
        (method_getbrightness w u name).1 = .reply (atoi s))) ∧
    ((udev_device_get_sysattr_value d "max_brightness" = none →
        (method_getmaxbrightness w u name).1 = .crash) ∧
      (∀ s, udev_device_get_sysattr_value d "max_brightness" = some s →
        (method_getmaxbrightness w u name).1 = .reply (atoi s))) ∧
    ((udev_device_get_sysattr_value d "actual_brightness" = none →
        (method_getactualbrightness w u name).1 = .crash) ∧
      (∀ s, udev_device_get_sysattr_value d "actual_brightness" = some s →
        (method_getactualbrightness w u name).1 = .reply (atoi s))) := by
  refine ⟨⟨?_, ?_⟩, ⟨?_, ?_⟩, ⟨?_, ?_⟩⟩
  · intro hat
    simp only [method_getbrightness, method_getattr, hres, hat]
  · intro s hat
    simp only [method_getbrightness, method_getattr, hres, hat]
  · intro hat
    simp only [method_getmaxbrightness, method_getattr, hres, hat]
  · intro s hat
    simp only [method_getmaxbrightness, method_getattr, hres, hat]
  · intro hat
    simp only [method_getactualbrightness, method_getattr, hres, hat]
  · intro s hat
    simp only [method_getactualbrightness, method_getattr, hres, hat]

theorem getters_coerce_or_crash_witness :
    ((method_getbrightness wGarbage .null "intel_backlight").1
        = .reply (atoi "garbage")) ∧
    ((method_getactualbrightness wGarbage .null "intel_backlight").1 = .crash) :=
  ⟨((getters_coerce_or_crash wGarbage .null "intel_backlight" devGarbage
      (by decide)).1).2 "garbage" (by decide),
   ((getters_coerce_or_crash wGarbage .null "intel_backlight" devGarbage
      (by decide)).2.2).1 (by decide)⟩

/-- C2: at the failing input — an empty "backlight" subsystem, empty device
name — `get_first_matching_device` never assigns the handler's `dev` slot,
so the `if (!dev)` test reads uninitialized memory: when the stack garbage is
non-null the handler proceeds on an indeterminate pointer (undefined
behaviour, modelled as a crash) instead of failing NotFound as the claim
states; only by accident of the garbage being NULL does NotFound result. -/
theorem getbrightness_empty_subsystem_uninitialized :
    (method_getbrightness wEmpty .junk "").1 = .crash ∧
    (method_getbrightness wEmpty .junk "").1
      ≠ .busError .fileNotFound "Device does not exist." ∧
    (method_getbrightness wEmpty .null "").1
      = .busError .fileNotFound "Device does not exist." := by
  decide

/-- C3: at the failing input — `setbrightness("intel_backlight", 150)` with
`max_brightness` 100 — the handler resolves the device, reads its max, and
rejects the value with InvalidArgument, but its capability trace ends without
any unref: the `value > max` error path returns without releasing the
already-resolved handle (unlike the AccessDenied and success paths, whose
traces do contain the unref), contradicting the claim that every exit path
releases the handle. -/
theorem setbrightness_overmax_leaks_handle :
    (method_setbrightness w0 .null "intel_backlight" 150).1
      = .busError .invalidArgs "Value must be smaller than 100." ∧
    (method_setbrightness w0 .null "intel_backlight" 150).2.2
      = [.lookup "backlight" "intel_backlight",
         .readAttr "intel_backlight" "max_brightness"] ∧
    Effect.unref "intel_backlight"
      ∉ (method_setbrightness w0 .null "intel_backlight" 150).2.2 ∧
    Effect.unref "intel_backlight"
      ∈ (method_setbrightness w0 .null "intel_backlight" 60).2.2 := by
  decide

/-- Read-after-write consistency below the buffer bound. For every device
resolved by `name` whose fresh `max_brightness` parses to at least `value`,
with `0 ≤ value ≤ max`, a rendering that fits the 10-byte `sprintf` buffer, a
writable device and an existing brightness file, `setbrightness(name, value)`
succeeds replying `value`, and `getbrightness(name)` run against the updated
world returns exactly `value` (whatever the new uninitialized stack contents
are): the stored decimal rendering parses back to the value written. -/
theorem setbrightness_then_getbrightness (w : World) (u u' : Uninit) (name : String)
    (v : Int) (d : Device) (s : String)
    (hres : resolveDevice w u name = .valid d)
    (hmax : udev_device_get_sysattr_value d "max_brightness" = some s)
    (h0 : 0 ≤ v) (hle : v ≤ atoi s)
    (hfit : (sprintfD v).length + 1 ≤ 10)
    (hwr : d.writable = true)
    (hbr : d.attrs.any (fun p => p.1 = "brightness") = true) :
    (method_setbrightness w u name v).1 = .reply v ∧
    (method_getbrightness (method_setbrightness w u name v).2.1 u' name).1
      = .reply v := by
  have hset : udev_device_set_sysattr_value w d "brightness" (sprintfD v)
      = some ⟨w.devices.map
          (fun x => if x.sysname = d.sysname
            then setAttrVal x "brightness" (sprintfD v) else x)⟩ := by
    rw [udev_device_set_sysattr_value, if_pos ⟨hwr, hbr⟩]
  have hcall := setbrightness_success_eq w u name v d s _ (by omega) hres hmax
    (by omega) (by omega) hset
  rw [hcall]
  refine ⟨rfl, ?_⟩
  have hf : ∀ x : Device,
      ((fun x => if x.sysname = d.sysname
          then setAttrVal x "brightness" (sprintfD v) else x) x).sysname
        = x.sysname := by
    intro x
    by_cases h : x.sysname = d.sysname
    · simp [h, setAttrVal_sysname]
    · simp [h]
  have hres' := resolveDevice_map_update w u u' name d _ hf hres
  have hres2 : resolveDevice
      ⟨w.devices.map (fun x => if x.sysname = d.sysname
        then setAttrVal x "brightness" (sprintfD v) else x)⟩ u' name
      = .valid (setAttrVal d "brightness" (sprintfD v)) := by
    rw [hres']
    congr 1
    rw [if_pos rfl]
  have hget : udev_device_get_sysattr_value
      (setAttrVal d "brightness" (sprintfD v)) "brightness"
      = some (sprintfD v) :=
    getSysattr_setAttrVal d "brightness" (sprintfD v) hbr
  simp only [method_getbrightness, method_getattr, hres2, hget]
  rw [atoi_sprintfD h0]

theorem setbrightness_then_getbrightness_witness :
    (method_setbrightness w0 .null "intel_backlight" 60).1 = .reply 60 ∧
    (method_getbrightness (method_setbrightness w0 .null "intel_backlight" 60).2.1
      .null "intel_backlight").1 = .reply 60 :=
  setbrightness_then_getbrightness w0 .null .null "intel_backlight" 60 dev0 "100"
    (by decide) (by decide) (by decide) (by decide) (by decide) (by decide) (by decide)

/-- C4: at the failing input — `setbrightness("intel_backlight", 1000000000)`
on a device whose `max_brightness` file holds `"2000000000"` — the value
passes both validations of the claimed algorithm, but its decimal rendering
plus the NUL terminator needs 11 bytes, so `sprintf(val, "%d", value)`
overflows the 10-byte `char val[10]` stack buffer (undefined behaviour,
modelled as a crash) instead of performing the claimed write-and-reply: no
write effect occurs and no value is replied. At the boundary value 999999999
the rendering fits and the clean write and exact reply do happen, as the
claim intends. -/
theorem setbrightness_sprintf_overflow :
    (method_setbrightness wBig .null "intel_backlight" 1000000000).1 = .crash ∧
    (method_setbrightness wBig .null "intel_backlight" 1000000000).1
      ≠ .reply 1000000000 ∧
    (∀ e ∈ (method_setbrightness wBig .null "intel_backlight" 1000000000).2.2,
      isWriteEff e = false) ∧
    (method_setbrightness wBig .null "intel_backlight" 999999999).1
      = .reply 999999999 := by
  decide

/-- C6: read-after-write fails at the failing input — with `max_brightness`
parsing to 2000000000 and stored brightness `"40"`,
`setbrightness("intel_backlight", 1000000000)` satisfies
`0 ≤ value ≤ max` but the `sprintf` of the 10-digit value overflows
`char val[10]` (undefined behaviour, modelled as a crash) before any write,
so the call does not succeed and a subsequent
`getbrightness("intel_backlight")` still returns the old value 40, not the
claimed written value. -/
theorem setbrightness_overflow_no_roundtrip :
    (method_setbrightness wBig .null "intel_backlight" 1000000000).1
      ≠ .reply 1000000000 ∧
    (method_getbrightness
        (method_setbrightness wBig .null "intel_backlight" 1000000000).2.1
        .null "intel_backlight").1 = .reply 40 ∧
    (method_getbrightness
        (method_setbrightness wBig .null "intel_backlight" 1000000000).2.1
        .null "intel_backlight").1 ≠ .reply 1000000000 := by
  decide

end Clightd
